import Mathlib

/-!
Shallow embedding of the quiz-room session engine of the SuiQuiz server
(`class QuizRoom`, its REST command handlers and its socket event handlers),
together with the quiz-creation form validation of the UI.

Conventions of the embedding:
* JS numbers that are used with the `|| d` default idiom are modelled as `Nat`
  where `0` stands for both `0` and a missing field (JS treats both as falsy).
* The JS `Map` of players (insertion ordered, `set` overwrites in place,
  `values()` iterates in insertion order) is modelled as an association list
  keyed by the player id, with `playersSet` replacing in place.
* The sparse-array assignment `player.answers[questionIndex] = answer` is
  modelled on `List (Option Nat)` with `none` padding.
* `Array.prototype.sort` with comparator `(a, b) => b.score - a.score` is a
  stable descending sort by score; it is modelled by a stable insertion sort.
* Calls to the external ledger (reward distribution, badge minting) are
  effects; they are recorded in a `DispatchTrace` value and the ledger's
  success is a boolean parameter.
-/

namespace SuiQuiz

/-- JS `n || d` on a number field, where `n = 0` also models a missing field. -/
def jsOr (n d : Nat) : Nat := if n = 0 then d else n

/-- One quiz question (only the fields the engine reads: `correctAnswer` and
`points`; scoring uses `points || 10`). -/
structure Question where
  correctAnswer : Nat
  points : Nat
  deriving Repr, DecidableEq

/-- The `rewardInfo` object attached to `quizData` at room creation. -/
structure RewardInfo where
  suiAmount : Nat
  distribution : String
  manualPercentages : Option (List Int)
  deriving Repr, DecidableEq

/-- The `quizData` carried by a room. -/
structure QuizData where
  title : String
  questions : List Question
  timePerQuestion : Nat
  maxPlayers : Nat
  rewardInfo : RewardInfo
  deriving Repr, DecidableEq

/-- A room participant, as stored in `room.players` (keyed by socket id). -/
structure Player where
  id : String
  nickname : String
  address : String
  score : Nat
  answers : List (Option Nat)
  joinedAt : Nat
  isReady : Bool
  deriving Repr, DecidableEq

/-- `room.gameState`: `'waiting' | 'playing' | 'finished'`. -/
inductive GameState
  | waiting
  | playing
  | finished
  deriving Repr, DecidableEq

/-- One entry of a broadcast leaderboard (`{address, nickname, score, position}`). -/
structure LBEntry where
  address : String
  nickname : String
  score : Nat
  position : Nat
  deriving Repr, DecidableEq

/-- A `QuizRoom` instance.  `timerArmed` models whether `timerInterval` is a
live interval handle (`true`) or `null` (`false`). -/
structure Room where
  roomCode : String
  quizData : QuizData
  hostAddress : String
  players : List Player
  gameState : GameState
  currentQuestion : Nat
  timeRemaining : Nat
  leaderboard : List LBEntry
  timerArmed : Bool
  rewardsDistributed : Bool
  deriving Repr, DecidableEq

/-- `Map.get` on the players map. -/
def playersGet (ps : List Player) (pid : String) : Option Player :=
  ps.find? (fun p => p.id = pid)

/-- `Map.set` on the players map: replace in place if the key is present,
append otherwise. -/
def playersSet (ps : List Player) (p : Player) : List Player :=
  match ps with
  | [] => [p]
  | q :: rest => if q.id = p.id then p :: rest else q :: playersSet rest p

/-- `Map.delete` on the players map. -/
def playersDelete (ps : List Player) (pid : String) : List Player :=
  ps.filter (fun p => p.id ≠ pid)

/-- Sparse-array assignment `answers[i] = v` on a JS array, padding missing
slots with `none`. -/
def setAnswerAt : List (Option Nat) → Nat → Nat → List (Option Nat)
  | [], 0, v => [some v]
  | [], Nat.succ i, v => none :: setAnswerAt [] i v
  | _ :: xs, 0, v => some v :: xs
  | x :: xs, Nat.succ i, v => x :: setAnswerAt xs i v

/-- `QuizRoom.addPlayer(playerId, nickname, address)`. -/
def addPlayer (r : Room) (pid nickname address : String) (now : Nat) : Room :=
  let p : Player :=
    { id := pid, nickname := nickname, address := address, score := 0,
      answers := [], joinedAt := now, isReady := false }
  { r with players := playersSet r.players p }

/-- `QuizRoom.removePlayer(playerId)`. -/
def removePlayer (r : Room) (pid : String) : Room :=
  { r with players := playersDelete r.players pid }

/-- `QuizRoom.startQuiz(io)`: set `playing`, reset the question pointer,
arm the per-question timer. -/
def startQuiz (r : Room) : Room :=
  { r with gameState := GameState.playing, currentQuestion := 0,
           timeRemaining := jsOr r.quizData.timePerQuestion 30,
           timerArmed := true }

/-- The score delta of `QuizRoom.submitAnswer`: `question.points || 10` when
the looked-up question exists and the answer index equals `correctAnswer`,
`0` otherwise. -/
def answerPoints (qs : List Question) (qi ans : Nat) : Nat :=
  match qs[qi]? with
  | some q => if ans = q.correctAnswer then jsOr q.points 10 else 0
  | none => 0

/-- `QuizRoom.submitAnswer(playerId, questionIndex, answer)`: returns the
updated room and the method's boolean result.  The method looks up the player,
adds the (possibly zero) points, records the answer at `questionIndex`, and
returns `true`; it returns `false` only when the player id is absent. -/
def submitAnswer (r : Room) (pid : String) (qi ans : Nat) : Room × Bool :=
  match playersGet r.players pid with
  | none => (r, false)
  | some player =>
    let player' := { player with
      score := player.score + answerPoints r.quizData.questions qi ans,
      answers := setAnswerAt player.answers qi ans }
    ({ r with players := playersSet r.players player' }, true)

/-- `QuizRoom.resetQuiz()`: back to `waiting`, clear the players map, the
leaderboard and the timer. -/
def resetQuiz (r : Room) : Room :=
  { r with gameState := GameState.waiting, currentQuestion := 0,
           timeRemaining := 0, players := [], leaderboard := [],
           timerArmed := false }

/-- Stable insertion step of the descending-by-score sort: an element is
placed before the first strictly smaller score, after equal scores. -/
def insertDesc (p : Player) : List Player → List Player
  | [] => [p]
  | q :: qs => if q.score ≤ p.score then p :: q :: qs else q :: insertDesc p qs

/-- Model of `players.sort((a, b) => b.score - a.score)`: the stable
descending sort by score (JS array sort is stable). -/
def sortDesc : List Player → List Player
  | [] => []
  | p :: ps => insertDesc p (sortDesc ps)

/-- The host-excluded, score-descending ranking used by every leaderboard
computation: `Array.from(players.values()).filter(p => p.address !==
hostAddress).sort((a, b) => b.score - a.score)`. -/
def rankDesc (host : String) (ps : List Player) : List Player :=
  sortDesc (ps.filter (fun p => p.address ≠ host))

/-- `.map((player, index) => ({..., position: index + 1}))`, with the running
index threaded explicitly. -/
def withPositions : List Player → Nat → List LBEntry
  | [], _ => []
  | p :: ps, i =>
    { address := p.address, nickname := p.nickname, score := p.score,
      position := i + 1 } :: withPositions ps (i + 1)

/-- The leaderboard payload broadcast by the join, submit-answer and
request-leaderboard handlers, and stored by `calculateLeaderboard`. -/
def leaderboardFor (host : String) (ps : List Player) : List LBEntry :=
  withPositions (rankDesc host ps) 0

/-- `QuizRoom.calculateLeaderboard()`. -/
def calculateLeaderboard (r : Room) : Room :=
  { r with leaderboard := leaderboardFor r.hostAddress r.players }

/-- The badge request payload built by `distributeRewardsAndBadges` for one
ranked player. -/
structure BadgeData where
  badgeType : String
  quizId : String
  winner : String
  score : Nat
  totalPossible : Nat
  position : Nat
  rewardPercentage : Nat
  deriving Repr, DecidableEq

/-- Badge tier selection by position and score. -/
def badgeTypeFor (position score : Nat) : String :=
  if position = 1 then "Quiz Champion"
  else if position = 2 then "Quiz Runner-up"
  else if position = 3 then "Quiz Bronze"
  else if 80 ≤ score then "Quiz Expert"
  else "Participation"

/-- Fixed reward percentage by position (50/30/20 for the top 3). -/
def rewardPercentageFor (position : Nat) : Nat :=
  if position = 1 then 50
  else if position = 2 then 30
  else if position = 3 then 20
  else 0

/-- The badge record constructed for a ranked player; note
`totalPossible := questions.length * 10` (source comment: "Assuming 10 points
per question"). -/
def mkBadgeData (r : Room) (p : Player) (position : Nat) : BadgeData :=
  { badgeType := badgeTypeFor position p.score,
    quizId := r.roomCode,
    winner := p.address,
    score := p.score,
    totalPossible := r.quizData.questions.length * 10,
    position := position,
    rewardPercentage := rewardPercentageFor position }

/-- The badge-construction loop `for (let i = 0; i < leaderboard.length; i++)`
with `position = i + 1`. -/
def mintBadges (r : Room) : List Player → Nat → List BadgeData
  | [], _ => []
  | p :: ps, i => mkBadgeData r p (i + 1) :: mintBadges r ps (i + 1)

/-- The `(winners, amounts)` pairs computed by `distributeSUIRewards`:
top-3 split 50/30/20, or the manual percentage list (defaulting to
`[50, 30, 20]` when absent) applied to the ranked prefix. -/
def suiPairs (r : Room) (lb : List Player) : List (String × Int) :=
  let total : Int := (r.quizData.rewardInfo.suiAmount : Int) * 1000000000
  if r.quizData.rewardInfo.distribution = "top3" then
    ((lb.take 3).zip [50, 30, 20]).map
      (fun pp => (pp.1.address, Int.fdiv (total * pp.2) 100))
  else if r.quizData.rewardInfo.distribution = "manual" then
    let pcts := r.quizData.rewardInfo.manualPercentages.getD [50, 30, 20]
    ((lb.take pcts.length).zip pcts).map
      (fun pp => (pp.1.address, Int.fdiv (total * pp.2) 100))
  else []

/-- `QuizRoom.distributeSUIRewards(leaderboard)`: when there is at least one
winner, call the ledger (`distributeRewardsToWinners`), and on success set
`rewardsDistributed := true`.  Returns the room and whether the ledger
distribution call was made.  `ledgerOk` models the external call's success. -/
def distributeSUIRewards (r : Room) (lb : List Player) (ledgerOk : Bool) :
    Room × Bool :=
  if 0 < (suiPairs r lb).length then
    (if ledgerOk then { r with rewardsDistributed := true } else r, true)
  else (r, false)

/-- The externally visible effects of one reward/badge dispatch pass. -/
structure DispatchTrace where
  suiLedgerCalled : Bool
  badgeMints : List BadgeData
  deriving Repr, DecidableEq

/-- The empty trace (no dispatch pass ran). -/
def emptyTrace : DispatchTrace := { suiLedgerCalled := false, badgeMints := [] }

/-- `QuizRoom.distributeRewardsAndBadges(leaderboard)`: distribute SUI when a
pool is configured, then construct and mint one badge per ranked player. -/
def distributeRewardsAndBadges (r : Room) (lb : List Player) (ledgerOk : Bool) :
    Room × DispatchTrace :=
  let step :=
    if 0 < r.quizData.rewardInfo.suiAmount then distributeSUIRewards r lb ledgerOk
    else (r, false)
  (step.1, { suiLedgerCalled := step.2, badgeMints := mintBadges step.1 lb 0 })

/-- `QuizRoom.finishQuiz(io)`: set `finished`, compute the leaderboard, clear
the timer, then run the reward/badge dispatch pass (unconditionally: nothing
consults `rewardsDistributed` or the previous `gameState`). -/
def finishQuiz (r : Room) (ledgerOk : Bool) : Room × DispatchTrace :=
  let r1 := { r with gameState := GameState.finished, timerArmed := false }
  let r2 := calculateLeaderboard r1
  let lb := rankDesc r2.hostAddress r2.players
  distributeRewardsAndBadges r2 lb ledgerOk

/-- `QuizRoom.nextQuestion(io)`: increment the question pointer, reset the
countdown, and finish the quiz when the pointer has moved past the last
question.  Returns the room, the dispatch trace and the method's boolean
result (`true` when the quiz finished). -/
def nextQuestion (r : Room) (ledgerOk : Bool) : Room × DispatchTrace × Bool :=
  let r1 := { r with currentQuestion := r.currentQuestion + 1,
                     timeRemaining := jsOr r.quizData.timePerQuestion 30 }
  if r1.quizData.questions.length ≤ r1.currentQuestion then
    let f := finishQuiz r1 ledgerOk
    (f.1, f.2, true)
  else (r1, emptyTrace, false)

/-- `QuizRoom.handleTimeUp(io)`: advance (and rearm the timer) or finish. -/
def handleTimeUp (r : Room) (ledgerOk : Bool) : Room × DispatchTrace :=
  if r.currentQuestion < r.quizData.questions.length - 1 then
    let step := nextQuestion r ledgerOk
    ({ step.1 with timerArmed := true }, step.2.1)
  else finishQuiz r ledgerOk

/-- Typed rejections of the `join-room` socket handler. -/
inductive JoinError
  | roomNotFound
  | gameAlreadyStarted
  | roomFull
  deriving Repr, DecidableEq

/-- The `join-room` socket handler: room lookup by code, then the state check,
then the capacity check (`players.size >= (maxPlayers || 10)`), then
`addPlayer` keyed by the socket id.  There is no duplicate-identity check. -/
def joinRoom (rooms : List Room) (code sid nickname address : String)
    (now : Nat) : Except JoinError Room :=
  match rooms.find? (fun r => r.roomCode = code) with
  | none => Except.error JoinError.roomNotFound
  | some room =>
    if room.gameState ≠ GameState.waiting then
      Except.error JoinError.gameAlreadyStarted
    else if jsOr room.quizData.maxPlayers 10 ≤ room.players.length then
      Except.error JoinError.roomFull
    else
      Except.ok (addPlayer room sid nickname address now)

/-- Typed rejections of the REST `POST /api/rooms/:roomCode/start` handler. -/
inductive StartError
  | roomNotFound
  | notHost
  | noQuestions
  deriving Repr, DecidableEq

/-- The REST start handler: room lookup, host check, non-empty-question check,
then `startQuiz`.  There is no game-state check and no minimum-player check. -/
def restStartQuiz (rooms : List Room) (code host : String) :
    Except StartError Room :=
  match rooms.find? (fun r => r.roomCode = code) with
  | none => Except.error StartError.roomNotFound
  | some room =>
    if room.hostAddress ≠ host then Except.error StartError.notHost
    else if room.quizData.questions.length = 0 then
      Except.error StartError.noQuestions
    else Except.ok (startQuiz room)

/-- The `start-quiz` socket handler: only the host check, then `startQuiz`. -/
def socketStartQuiz (r : Room) (callerAddress : String) : Except Unit Room :=
  if r.hostAddress ≠ callerAddress then Except.error ()
  else Except.ok (startQuiz r)

/-- The `submit-answer` socket handler: silently dropped unless the room is in
`playing`; otherwise delegates to `submitAnswer`.  Returns the room and
whether the submission was accepted (the method's `success` flag, which also
gates the `answer-submitted` reply and the leaderboard broadcast). -/
def socketSubmitAnswer (r : Room) (sid : String) (qi ans : Nat) : Room × Bool :=
  if r.gameState ≠ GameState.playing then (r, false)
  else submitAnswer r sid qi ans

/-- The `next-question` socket handler: only the host check, then
`nextQuestion` — the game state is never consulted. -/
def socketNextQuestion (r : Room) (callerAddress : String) (ledgerOk : Bool) :
    Except Unit (Room × DispatchTrace) :=
  if r.hostAddress ≠ callerAddress then Except.error ()
  else
    let step := nextQuestion r ledgerOk
    Except.ok (step.1, step.2.1)

/-- Typed rejections of the REST `POST /api/rooms/:roomCode/stop` handler. -/
inductive StopError
  | roomNotFound
  | notHost
  deriving Repr, DecidableEq

/-- The REST stop handler: room lookup, host check, then set `waiting`, reset
the question pointer and countdown, and clear the timer — the players map is
left untouched. -/
def restStopQuiz (rooms : List Room) (code host : String) :
    Except StopError Room :=
  match rooms.find? (fun r => r.roomCode = code) with
  | none => Except.error StopError.roomNotFound
  | some room =>
    if room.hostAddress ≠ host then Except.error StopError.notHost
    else Except.ok { room with gameState := GameState.waiting,
                               currentQuestion := 0, timeRemaining := 0,
                               timerArmed := false }

/-- The `disconnect` socket handler for a connection registered to a room:
remove the player entry for the socket id, then — only when the stored address
is the room's host address — `resetQuiz`. -/
def handleDisconnect (r : Room) (sid addr : String) : Room :=
  let r1 := removePlayer r sid
  if r1.hostAddress = addr then resetQuiz r1 else r1

/-- The quiz data of an incoming `POST /api/rooms` request body. -/
structure IncomingQuizData where
  title : String
  questions : List Question
  timePerQuestion : Nat
  maxPlayers : Nat
  rewardType : String
  suiRewardAmount : Nat
  rewardDistribution : String
  manualPercentages : Option (List Int)
  deriving Repr, DecidableEq

/-- The REST `POST /api/rooms` handler: build the room (state `waiting`,
`rewardInfo` copied from the request) and register it.  The handler performs
no validation of the reward percentages — every request yields a room. -/
def restCreateRoom (q : IncomingQuizData) (hostAddress roomCode : String) :
    Room :=
  { roomCode := roomCode,
    quizData := { title := q.title, questions := q.questions,
                  timePerQuestion := q.timePerQuestion,
                  maxPlayers := q.maxPlayers,
                  rewardInfo := { suiAmount := q.suiRewardAmount,
                                  distribution := q.rewardDistribution,
                                  manualPercentages := q.manualPercentages } },
    hostAddress := hostAddress, players := [],
    gameState := GameState.waiting, currentQuestion := 0, timeRemaining := 0,
    leaderboard := [], timerArmed := false, rewardsDistributed := false }

/-- The state of the UI quiz-creation form that `createQuiz` reads. -/
structure CreateQuizForm where
  title : String
  description : String
  questions : List Question
  rewardType : String
  suiRewardAmount : Int
  rewardDistribution : String
  manualPercentages : List Int
  deriving Repr, DecidableEq

/-- Outcome of the UI `createQuiz` submit handler. -/
inductive UiCreateOutcome
  | rejectedMissingFields
  | rejectedSuiAmount
  | rejectedPercentTotal
  | rejectedNegativePercent
  | passedValidation
  deriving Repr, DecidableEq

/-- The UI `createQuiz` submit handler's validation chain: required fields,
positive SUI amount when a SUI reward is selected, manual percentages summing
to 100, no negative percentage.  Only when every check passes is a creation
request sent to the server. -/
def uiCreateQuiz (f : CreateQuizForm) : UiCreateOutcome :=
  if f.title = "" ∨ f.description = "" ∨ f.questions.length = 0 then
    UiCreateOutcome.rejectedMissingFields
  else if (f.rewardType = "sui" ∨ f.rewardType = "both") ∧
      f.suiRewardAmount ≤ 0 then
    UiCreateOutcome.rejectedSuiAmount
  else if f.rewardDistribution = "manual" ∧ f.manualPercentages.sum ≠ 100 then
    UiCreateOutcome.rejectedPercentTotal
  else if f.rewardDistribution = "manual" ∧
      f.manualPercentages.any (fun p => p < 0) then
    UiCreateOutcome.rejectedNegativePercent
  else UiCreateOutcome.passedValidation

/-- The maximum score actually attainable in a quiz: the sum of the effective
per-question points (`points || 10`), as awarded by `submitAnswer`. -/
def maxAchievableScore (qd : QuizData) : Nat :=
  (qd.questions.map (fun q => jsOr q.points 10)).sum

/-! ### Concrete rooms and inputs used to evaluate the handlers -/

/-- A playing two-question room (both questions worth 10, correct option 0)
with one non-host player who has not answered yet. -/
def pC1 : Player :=
  { id := "s1", nickname := "alice", address := "A", score := 0, answers := [],
    joinedAt := 0, isReady := false }

def roomC1 : Room :=
  { roomCode := "R1",
    quizData := { title := "T",
                  questions := [{ correctAnswer := 0, points := 10 },
                                { correctAnswer := 0, points := 10 }],
                  timePerQuestion := 30, maxPlayers := 10,
                  rewardInfo := { suiAmount := 0, distribution := "top3",
                                  manualPercentages := none } },
    hostAddress := "H", players := [pC1], gameState := GameState.playing,
    currentQuestion := 0, timeRemaining := 30, leaderboard := [],
    timerArmed := true, rewardsDistributed := false }

/-- A playing one-question room with a 1-SUI top-3 reward pool and one
non-host player. -/
def roomC2 : Room :=
  { roomCode := "R2",
    quizData := { title := "T",
                  questions := [{ correctAnswer := 0, points := 10 }],
                  timePerQuestion := 30, maxPlayers := 10,
                  rewardInfo := { suiAmount := 1, distribution := "top3",
                                  manualPercentages := none } },
    hostAddress := "H",
    players := [{ id := "s1", nickname := "alice", address := "A", score := 10,
                  answers := [some 0], joinedAt := 0, isReady := false }],
    gameState := GameState.playing, currentQuestion := 0, timeRemaining := 0,
    leaderboard := [], timerArmed := true, rewardsDistributed := false }

/-- `roomC2` with `rewardsDistributed` already set. -/
def roomC2w : Room := { roomC2 with rewardsDistributed := true }

/-- A room that is already `playing` and has no players at all. -/
def roomC3 : Room :=
  { roomCode := "R3",
    quizData := { title := "T",
                  questions := [{ correctAnswer := 0, points := 10 }],
                  timePerQuestion := 30, maxPlayers := 10,
                  rewardInfo := { suiAmount := 0, distribution := "top3",
                                  manualPercentages := none } },
    hostAddress := "H", players := [], gameState := GameState.playing,
    currentQuestion := 0, timeRemaining := 30, leaderboard := [],
    timerArmed := true, rewardsDistributed := false }

/-- A waiting room that already contains a player with address `"A"`. -/
def roomC4 : Room :=
  { roomCode := "R4",
    quizData := { title := "T",
                  questions := [{ correctAnswer := 0, points := 10 }],
                  timePerQuestion := 30, maxPlayers := 10,
                  rewardInfo := { suiAmount := 0, distribution := "top3",
                                  manualPercentages := none } },
    hostAddress := "H",
    players := [{ id := "s1", nickname := "alice", address := "A", score := 0,
                  answers := [], joinedAt := 0, isReady := false }],
    gameState := GameState.waiting, currentQuestion := 0, timeRemaining := 0,
    leaderboard := [], timerArmed := false, rewardsDistributed := false }

/-- A finished two-question room whose question pointer already equals the
question count (the state reached by a manual advance past the last
question). -/
def roomC5 : Room :=
  { roomCode := "R5",
    quizData := { title := "T",
                  questions := [{ correctAnswer := 0, points := 10 },
                                { correctAnswer := 1, points := 10 }],
                  timePerQuestion := 30, maxPlayers := 10,
                  rewardInfo := { suiAmount := 0, distribution := "top3",
                                  manualPercentages := none } },
    hostAddress := "H",
    players := [{ id := "s1", nickname := "alice", address := "A", score := 10,
                  answers := [some 0, some 1], joinedAt := 0, isReady := false }],
    gameState := GameState.finished, currentQuestion := 2, timeRemaining := 30,
    leaderboard := [], timerArmed := false, rewardsDistributed := false }

/-- A playing room mid-game: question index 1, a player with a score and a
recorded answer. -/
def roomC6 : Room :=
  { roomCode := "R6",
    quizData := { title := "T",
                  questions := [{ correctAnswer := 0, points := 10 },
                                { correctAnswer := 1, points := 10 }],
                  timePerQuestion := 30, maxPlayers := 10,
                  rewardInfo := { suiAmount := 0, distribution := "top3",
                                  manualPercentages := none } },
    hostAddress := "H",
    players := [{ id := "s1", nickname := "alice", address := "A", score := 10,
                  answers := [some 0], joinedAt := 0, isReady := false }],
    gameState := GameState.playing, currentQuestion := 1, timeRemaining := 7,
    leaderboard := [], timerArmed := true, rewardsDistributed := false }

/-- A playing room whose host (connection id `"s0"`) is joined alongside one
player, mid-game with nonzero scores. -/
def roomC7 : Room :=
  { roomCode := "R7",
    quizData := { title := "T",
                  questions := [{ correctAnswer := 0, points := 10 },
                                { correctAnswer := 1, points := 10 }],
                  timePerQuestion := 30, maxPlayers := 10,
                  rewardInfo := { suiAmount := 0, distribution := "top3",
                                  manualPercentages := none } },
    hostAddress := "H",
    players := [{ id := "s0", nickname := "host", address := "H", score := 0,
                  answers := [], joinedAt := 0, isReady := false },
                { id := "s1", nickname := "alice", address := "A", score := 10,
                  answers := [some 0], joinedAt := 1, isReady := false }],
    gameState := GameState.playing, currentQuestion := 1, timeRemaining := 9,
    leaderboard := [], timerArmed := true, rewardsDistributed := false }

/-- A `POST /api/rooms` body whose manual percentages sum to 90, not 100. -/
def badCreateQ : IncomingQuizData :=
  { title := "T", questions := [{ correctAnswer := 0, points := 10 }],
    timePerQuestion := 30, maxPlayers := 10, rewardType := "sui",
    suiRewardAmount := 1, rewardDistribution := "manual",
    manualPercentages := some [50, 30, 10] }

/-- A filled-in creation form whose manual percentages sum to 90. -/
def badForm : CreateQuizForm :=
  { title := "T", description := "D",
    questions := [{ correctAnswer := 0, points := 10 }],
    rewardType := "none", suiRewardAmount := 0,
    rewardDistribution := "manual", manualPercentages := [50, 30, 10] }

/-- A room with three players of distinct scores plus the host among the
players, for evaluating the leaderboard. -/
def roomC9 : Room :=
  { roomCode := "R9",
    quizData := { title := "T",
                  questions := [{ correctAnswer := 0, points := 10 }],
                  timePerQuestion := 30, maxPlayers := 10,
                  rewardInfo := { suiAmount := 0, distribution := "top3",
                                  manualPercentages := none } },
    hostAddress := "H",
    players := [{ id := "s0", nickname := "host", address := "H", score := 0,
                  answers := [], joinedAt := 0, isReady := false },
                { id := "s1", nickname := "alice", address := "A", score := 10,
                  answers := [some 0], joinedAt := 1, isReady := false },
                { id := "s2", nickname := "bob", address := "B", score := 20,
                  answers := [some 0], joinedAt := 2, isReady := false }],
    gameState := GameState.finished, currentQuestion := 0, timeRemaining := 0,
    leaderboard := [], timerArmed := false, rewardsDistributed := false }

/-- A finished room whose quiz has per-question points 5 and 15 (not 10). -/
def roomC10 : Room :=
  { roomCode := "RX",
    quizData := { title := "T",
                  questions := [{ correctAnswer := 0, points := 5 },
                                { correctAnswer := 1, points := 15 }],
                  timePerQuestion := 30, maxPlayers := 10,
                  rewardInfo := { suiAmount := 0, distribution := "top3",
                                  manualPercentages := none } },
    hostAddress := "H",
    players := [{ id := "s1", nickname := "alice", address := "A", score := 20,
                  answers := [some 0, some 1], joinedAt := 0, isReady := false }],
    gameState := GameState.finished, currentQuestion := 1, timeRemaining := 0,
    leaderboard := [], timerArmed := false, rewardsDistributed := false }

/-- The player of `roomC10`. -/
def pC10 : Player :=
  { id := "s1", nickname := "alice", address := "A", score := 20,
    answers := [some 0, some 1], joinedAt := 0, isReady := false }

/-! ### Helper lemmas -/

/-- `Map.set` then `Map.get` at the written key returns the written value,
provided the key was already present (the case `submitAnswer` is in). -/
theorem playersGet_playersSet (ps : List Player) (pid : String) (p q : Player)
    (hq : q.id = pid) (h : playersGet ps pid = some p) :
    playersGet (playersSet ps q) pid = some q := by
  induction ps with
  | nil => simp [playersGet] at h
  | cons r rest ih =>
    by_cases hr : r.id = pid
    · simp [playersSet, hr, hq, playersGet, List.find?]
    · have hne : ¬ r.id = q.id := by rw [hq]; exact hr
      have h' : playersGet rest pid = some p := by
        simpa [playersGet, List.find?, hr] using h
      simpa [playersSet, hne, playersGet, List.find?, hr] using ih h'

theorem insertDesc_perm (p : Player) (l : List Player) :
    (insertDesc p l).Perm (p :: l) := by
  induction l with
  | nil => simp [insertDesc]
  | cons q qs ih =>
    by_cases h : q.score ≤ p.score
    · simp [insertDesc, h]
    · simpa [insertDesc, h] using (ih.cons q).trans (List.Perm.swap p q qs)

theorem sortDesc_perm (l : List Player) : (sortDesc l).Perm l := by
  induction l with
  | nil => simp [sortDesc]
  | cons p ps ih => exact (insertDesc_perm p (sortDesc ps)).trans (ih.cons p)

theorem pairwise_insertDesc (p : Player) (l : List Player)
    (h : l.Pairwise (fun a b => b.score ≤ a.score)) :
    (insertDesc p l).Pairwise (fun a b => b.score ≤ a.score) := by
  induction l with
  | nil => simp [insertDesc]
  | cons q qs ih =>
    rcases List.pairwise_cons.mp h with ⟨hq, hqs⟩
    by_cases hc : q.score ≤ p.score
    · rw [insertDesc, if_pos hc]
      refine List.pairwise_cons.mpr ⟨?_, h⟩
      intro x hx
      rcases List.mem_cons.mp hx with hx | hx
      · subst hx; exact hc
      · exact le_trans (hq x hx) hc
    · rw [insertDesc, if_neg hc]
      refine List.pairwise_cons.mpr ⟨?_, ih hqs⟩
      intro x hx
      have hx' : x ∈ p :: qs := (insertDesc_perm p qs).mem_iff.mp hx
      rcases List.mem_cons.mp hx' with hx' | hx'
      · subst hx'; omega
      · exact hq x hx'

theorem sortDesc_pairwise (l : List Player) :
    (sortDesc l).Pairwise (fun a b => b.score ≤ a.score) := by
  induction l with
  | nil => simp [sortDesc]
  | cons p ps ih => exact pairwise_insertDesc p (sortDesc ps) ih

theorem withPositions_map_address (ps : List Player) (i : Nat) :
    (withPositions ps i).map (fun e => e.address) = ps.map (fun p => p.address) := by
  induction ps generalizing i with
  | nil => simp [withPositions]
  | cons p rest ih => simp [withPositions, ih]

theorem withPositions_map_score (ps : List Player) (i : Nat) :
    (withPositions ps i).map (fun e => e.score) = ps.map (fun p => p.score) := by
  induction ps generalizing i with
  | nil => simp [withPositions]
  | cons p rest ih => simp [withPositions, ih]

theorem withPositions_map_position (ps : List Player) (i : Nat) :
    (withPositions ps i).map (fun e => e.position) =
      List.range' (i + 1) ps.length := by
  induction ps generalizing i with
  | nil => simp [withPositions]
  | cons p rest ih => simp [withPositions, ih, List.range'_succ]

theorem withPositions_length (ps : List Player) (i : Nat) :
    (withPositions ps i).length = ps.length := by
  induction ps generalizing i with
  | nil => simp [withPositions]
  | cons p rest ih => simp [withPositions, ih]

theorem mintBadges_length (r : Room) (lb : List Player) (i : Nat) :
    (mintBadges r lb i).length = lb.length := by
  induction lb generalizing i with
  | nil => simp [mintBadges]
  | cons p rest ih => simp [mintBadges, ih]

/-- `distributeSUIRewards` changes at most the `rewardsDistributed` flag. -/
theorem distributeSUIRewards_shape (r : Room) (lb : List Player) (ok : Bool) :
    (distributeSUIRewards r lb ok).1 = r ∨
      (distributeSUIRewards r lb ok).1 = { r with rewardsDistributed := true } := by
  unfold distributeSUIRewards
  split
  · cases ok <;> simp
  · simp

/-- `distributeRewardsAndBadges` changes at most the `rewardsDistributed`
flag of the room. -/
theorem distributeRewardsAndBadges_shape (r : Room) (lb : List Player)
    (ok : Bool) :
    (distributeRewardsAndBadges r lb ok).1 = r ∨
      (distributeRewardsAndBadges r lb ok).1 =
        { r with rewardsDistributed := true } := by
  unfold distributeRewardsAndBadges
  split
  · exact distributeSUIRewards_shape r lb ok
  · simp

theorem dRB_gameState (r : Room) (lb : List Player) (ok : Bool) :
    (distributeRewardsAndBadges r lb ok).1.gameState = r.gameState := by
  rcases distributeRewardsAndBadges_shape r lb ok with h | h <;> simp [h]

theorem dRB_currentQuestion (r : Room) (lb : List Player) (ok : Bool) :
    (distributeRewardsAndBadges r lb ok).1.currentQuestion = r.currentQuestion := by
  rcases distributeRewardsAndBadges_shape r lb ok with h | h <;> simp [h]

theorem dRB_timeRemaining (r : Room) (lb : List Player) (ok : Bool) :
    (distributeRewardsAndBadges r lb ok).1.timeRemaining = r.timeRemaining := by
  rcases distributeRewardsAndBadges_shape r lb ok with h | h <;> simp [h]

theorem dRB_players (r : Room) (lb : List Player) (ok : Bool) :
    (distributeRewardsAndBadges r lb ok).1.players = r.players := by
  rcases distributeRewardsAndBadges_shape r lb ok with h | h <;> simp [h]

theorem dRB_hostAddress (r : Room) (lb : List Player) (ok : Bool) :
    (distributeRewardsAndBadges r lb ok).1.hostAddress = r.hostAddress := by
  rcases distributeRewardsAndBadges_shape r lb ok with h | h <;> simp [h]

theorem dRB_timerArmed (r : Room) (lb : List Player) (ok : Bool) :
    (distributeRewardsAndBadges r lb ok).1.timerArmed = r.timerArmed := by
  rcases distributeRewardsAndBadges_shape r lb ok with h | h <;> simp [h]

theorem dRB_rewards_mono (r : Room) (lb : List Player) (ok : Bool)
    (h : r.rewardsDistributed = true) :
    (distributeRewardsAndBadges r lb ok).1.rewardsDistributed = true := by
  rcases distributeRewardsAndBadges_shape r lb ok with h' | h' <;> simp [h', h]

/-- Field values of the room produced by `finishQuiz`. -/
theorem finishQuiz_fields (r : Room) (ok : Bool) :
    (finishQuiz r ok).1.gameState = GameState.finished ∧
      (finishQuiz r ok).1.currentQuestion = r.currentQuestion ∧
      (finishQuiz r ok).1.timeRemaining = r.timeRemaining ∧
      (finishQuiz r ok).1.players = r.players ∧
      (finishQuiz r ok).1.hostAddress = r.hostAddress ∧
      (finishQuiz r ok).1.timerArmed = false := by
  simp [finishQuiz, dRB_gameState, dRB_currentQuestion, dRB_timeRemaining,
    dRB_players, dRB_hostAddress, dRB_timerArmed, calculateLeaderboard]

/-- `finishQuiz` never clears the `rewardsDistributed` flag. -/
theorem finishQuiz_rewardsDistributed_mono (r : Room) (ok : Bool)
    (h : r.rewardsDistributed = true) :
    (finishQuiz r ok).1.rewardsDistributed = true := by
  simp only [finishQuiz]
  exact dRB_rewards_mono _ _ _ (by simp [calculateLeaderboard, h])

/-- The badge mints of one `finishQuiz` invocation: exactly one badge per
ranked (host-excluded) player. -/
theorem finishQuiz_badgeMints_length (r : Room) (ok : Bool) :
    (finishQuiz r ok).2.badgeMints.length =
      (rankDesc r.hostAddress r.players).length := by
  simp [finishQuiz, distributeRewardsAndBadges, mintBadges_length,
    calculateLeaderboard]

/-- A found player's id is the looked-up key. -/
theorem playersGet_eq_some_id (ps : List Player) (pid : String) (p : Player)
    (h : playersGet ps pid = some p) : p.id = pid := by
  have := List.find?_some h
  simpa using this

/-! ### Claims -/

/-- C1 (counterexample): in a playing room at `currentQuestionIndex = 0`, a
submission for question index 1 is accepted, and two submissions for the same
question are both scored (the score ends at 20, not 10).  This refutes the
claim that an answer is accepted only when its index equals
`currentQuestionIndex` and that only the first submission per question is
scored. -/
theorem C1_counterexample :
    (socketSubmitAnswer roomC1 "s1" 1 0).2 = true ∧
      (playersGet (socketSubmitAnswer
          (socketSubmitAnswer roomC1 "s1" 0 0).1 "s1" 0 0).1.players
        "s1").map (fun p => p.score) = some 20 := by
  exact ⟨rfl, rfl⟩

/-- C1 (amended): a submission is accepted exactly when the room is in the
`playing` state and the submitting connection is present in the room's player
map — the submitted question index is never compared with
`currentQuestionIndex`; every accepted submission adds
`answerPoints` (the question's `points || 10` when the answer index matches
`correctAnswer`, else 0) to the player's score — so repeated submissions for
the same question are scored again — and overwrites the recorded answer at the
submitted index. -/
theorem C1_submit_accept_characterization (r : Room) (sid : String)
    (qi ans : Nat) :
    ((socketSubmitAnswer r sid qi ans).2 = true ↔
      r.gameState = GameState.playing ∧ (playersGet r.players sid).isSome = true) ∧
    (∀ p : Player, r.gameState = GameState.playing →
      playersGet r.players sid = some p →
      playersGet (socketSubmitAnswer r sid qi ans).1.players sid =
        some { p with
          score := p.score + answerPoints r.quizData.questions qi ans,
          answers := setAnswerAt p.answers qi ans }) := by
  constructor
  · by_cases hg : r.gameState = GameState.playing
    · cases h : playersGet r.players sid with
      | none => simp [socketSubmitAnswer, hg, submitAnswer, h]
      | some p => simp [socketSubmitAnswer, hg, submitAnswer, h]
    · simp [socketSubmitAnswer, hg]
  · intro p hg hp
    have hid : p.id = sid := playersGet_eq_some_id r.players sid p hp
    have hstep : (socketSubmitAnswer r sid qi ans).1.players =
        playersSet r.players { p with
          score := p.score + answerPoints r.quizData.questions qi ans,
          answers := setAnswerAt p.answers qi ans } := by
      simp [socketSubmitAnswer, hg, submitAnswer, hp]
    rw [hstep]
    exact playersGet_playersSet r.players sid p _ hid hp

/-- C1 (witness): the characterization applied to the concrete playing room
`roomC1` and its player. -/
theorem C1_witness :
    playersGet (socketSubmitAnswer roomC1 "s1" 0 0).1.players "s1" =
      some { pC1 with
        score := pC1.score + answerPoints roomC1.quizData.questions 0 0,
        answers := setAnswerAt pC1.answers 0 0 } :=
  (C1_submit_accept_characterization roomC1 "s1" 0 0).2 pC1 rfl rfl

/-- C2 (counterexample): invoking the finish transition twice on the same
room runs the reward/badge dispatch pass twice — both invocations call the
SUI ledger distribution and both mint a badge for the room's one ranked
player.  This refutes the claim that the dispatch pass runs at most once per
room no matter how often finish is invoked. -/
theorem C2_counterexample :
    (finishQuiz roomC2 true).2.suiLedgerCalled = true ∧
      (finishQuiz roomC2 true).2.badgeMints.length = 1 ∧
      (finishQuiz (finishQuiz roomC2 true).1 true).2.suiLedgerCalled = true ∧
      (finishQuiz (finishQuiz roomC2 true).1 true).2.badgeMints.length = 1 := by
  exact ⟨rfl, rfl, rfl, rfl⟩

/-- C2 (amended): `rewardsDistributed` is monotone — `finishQuiz` never
resets it, so it transitions false→true at most once — but the reward/badge
dispatch pass is not guarded by it: every invocation of `finishQuiz`
constructs and mints one badge per ranked player, so invoking finish twice
dispatches twice. -/
theorem C2_finish_dispatch_every_invocation (r : Room) (ok : Bool) :
    (finishQuiz r ok).2.badgeMints.length =
      (rankDesc r.hostAddress r.players).length ∧
    (r.rewardsDistributed = true →
      (finishQuiz r ok).1.rewardsDistributed = true) :=
  ⟨finishQuiz_badgeMints_length r ok,
   finishQuiz_rewardsDistributed_mono r ok⟩

/-- C2 (witness): monotonicity applied to a room whose flag is already set. -/
theorem C2_witness : (finishQuiz roomC2w true).1.rewardsDistributed = true :=
  (C2_finish_dispatch_every_invocation roomC2w true).2 rfl

/-- C3 (counterexample): the start command succeeds on a room that is already
`playing` and has zero players (hence zero non-host players), restarting the
quiz instead of being rejected with an `InvalidState` error. -/
theorem C3_counterexample :
    roomC3.gameState = GameState.playing ∧
      roomC3.players = ([] : List Player) ∧
      restStartQuiz [roomC3] "R3" "H" = Except.ok (startQuiz roomC3) := by
  exact ⟨rfl, rfl, rfl⟩

/-- C3 (amended): the REST start handler succeeds whenever the room exists,
the caller is the host and the quiz has at least one question — it requires
no non-host player and never checks the game state, so a start on an already
playing room succeeds and restarts from question 0; the socket start handler
checks only that the caller is the host. -/
theorem C3_start_checks_only_host_and_questions (rooms : List Room)
    (code host : String) (room : Room)
    (hfind : rooms.find? (fun r => r.roomCode = code) = some room)
    (hhost : room.hostAddress = host)
    (hq : room.quizData.questions.length ≠ 0) :
    restStartQuiz rooms code host = Except.ok (startQuiz room) ∧
      (startQuiz room).gameState = GameState.playing ∧
      (startQuiz room).currentQuestion = 0 ∧
      (∀ (r2 : Room) (addr : String), r2.hostAddress = addr →
        socketStartQuiz r2 addr = Except.ok (startQuiz r2)) := by
  refine ⟨?_, rfl, rfl, ?_⟩
  · simp [restStartQuiz, hfind, hhost, hq]
  · intro r2 addr h2
    simp [socketStartQuiz, h2]

/-- C3 (witness): the amended start rule applied to the playing, empty
`roomC3`. -/
theorem C3_witness :
    restStartQuiz [roomC3] "R3" "H" = Except.ok (startQuiz roomC3) :=
  (C3_start_checks_only_host_and_questions [roomC3] "R3" "H" roomC3 rfl rfl
    (by decide)).1

/-- C4 (counterexample): a join by an address that is already present in the
waiting room succeeds (under a fresh connection id), leaving two players with
the same address — duplicate-identity joins are not rejected. -/
theorem C4_counterexample :
    joinRoom [roomC4] "R4" "s2" "alice2" "A" 1 =
      Except.ok (addPlayer roomC4 "s2" "alice2" "A" 1) ∧
      (addPlayer roomC4 "s2" "alice2" "A" 1).players.map (fun p => p.address) =
        ["A", "A"] := by
  exact ⟨rfl, rfl⟩

/-- C4 (amended): a join fails with room-not-found when no live room has the
code; on a found room it fails with game-already-started whenever the state
is not `waiting` (this check precedes the capacity check), with room-full
when the player count has reached `maxPlayers || 10`, and otherwise succeeds
— regardless of whether the joining identity is already present (a duplicate
address is simply added under its new connection id). -/
theorem C4_join_characterization (rooms : List Room)
    (code sid nickname address : String) (now : Nat) :
    (rooms.find? (fun r => r.roomCode = code) = none →
      joinRoom rooms code sid nickname address now =
        Except.error JoinError.roomNotFound) ∧
    (∀ room : Room, rooms.find? (fun r => r.roomCode = code) = some room →
      room.gameState ≠ GameState.waiting →
      joinRoom rooms code sid nickname address now =
        Except.error JoinError.gameAlreadyStarted) ∧
    (∀ room : Room, rooms.find? (fun r => r.roomCode = code) = some room →
      room.gameState = GameState.waiting →
      jsOr room.quizData.maxPlayers 10 ≤ room.players.length →
      joinRoom rooms code sid nickname address now =
        Except.error JoinError.roomFull) ∧
    (∀ room : Room, rooms.find? (fun r => r.roomCode = code) = some room →
      room.gameState = GameState.waiting →
      room.players.length < jsOr room.quizData.maxPlayers 10 →
      joinRoom rooms code sid nickname address now =
        Except.ok (addPlayer room sid nickname address now)) := by
  refine ⟨?_, ?_, ?_, ?_⟩
  · intro h
    simp [joinRoom, h]
  · intro room hfind hg
    simp [joinRoom, hfind, hg]
  · intro room hfind hg hfull
    simp [joinRoom, hfind, hg, hfull]
  · intro room hfind hg hlt
    simp [joinRoom, hfind, hg, Nat.not_le.mpr hlt]

/-- C4 (witness): a fresh identity joining the waiting `roomC4`. -/
theorem C4_witness :
    joinRoom [roomC4] "R4" "s9" "bob" "B" 2 =
      Except.ok (addPlayer roomC4 "s9" "bob" "B" 2) :=
  (C4_join_characterization [roomC4] "R4" "s9" "bob" "B" 2).2.2.2 roomC4 rfl rfl
    (by decide)

/-- C5 (counterexample): on a finished two-question room, a host
advance-question command is not rejected: it succeeds, moves
`currentQuestionIndex` from 2 to 3 (exceeding the question count), resets
`timeRemainingSeconds` to 30, and re-runs the finish dispatch (one badge is
minted again). -/
theorem C5_counterexample :
    roomC5.gameState = GameState.finished ∧
      roomC5.quizData.questions.length = 2 ∧
      (socketNextQuestion roomC5 "H" true).toOption.map
          (fun x => x.1.currentQuestion) = some 3 ∧
      (socketNextQuestion roomC5 "H" true).toOption.map
          (fun x => x.1.timeRemaining) = some 30 ∧
      (socketNextQuestion roomC5 "H" true).toOption.map
          (fun x => x.2.badgeMints.length) = some 1 := by
  exact ⟨rfl, rfl, rfl, rfl, rfl⟩

/-- C5 (amended): the next-question socket handler checks only that the
caller is the host and never consults the game state: invoked by the host on
a finished room whose question pointer is at or past the last question, it
succeeds, increments `currentQuestionIndex` (past the question count), resets
`timeRemainingSeconds` to `timePerQuestion || 30`, and re-runs the finish
transition (re-dispatching one badge per ranked player) instead of rejecting
with `InvalidState`. -/
theorem C5_advance_after_finish_not_rejected (r : Room) (addr : String)
    (ok : Bool)
    (_hfin : r.gameState = GameState.finished)
    (hhost : r.hostAddress = addr)
    (hlast : r.quizData.questions.length ≤ r.currentQuestion + 1) :
    socketNextQuestion r addr ok =
      Except.ok ((nextQuestion r ok).1, (nextQuestion r ok).2.1) ∧
      (nextQuestion r ok).1.currentQuestion = r.currentQuestion + 1 ∧
      (nextQuestion r ok).1.gameState = GameState.finished ∧
      (nextQuestion r ok).1.timeRemaining = jsOr r.quizData.timePerQuestion 30 ∧
      (nextQuestion r ok).2.1.badgeMints.length =
        (rankDesc r.hostAddress r.players).length := by
  have hnext : nextQuestion r ok =
      ((finishQuiz { r with
          currentQuestion := r.currentQuestion + 1,
          timeRemaining := jsOr r.quizData.timePerQuestion 30 } ok).1,
        (finishQuiz { r with
          currentQuestion := r.currentQuestion + 1,
          timeRemaining := jsOr r.quizData.timePerQuestion 30 } ok).2,
        true) := by
    simp [nextQuestion, hlast]
  refine ⟨?_, ?_, ?_, ?_, ?_⟩
  · simp [socketNextQuestion, hhost]
  · rw [hnext]
    exact (finishQuiz_fields _ ok).2.1
  · rw [hnext]
    exact (finishQuiz_fields _ ok).1
  · rw [hnext]
    exact (finishQuiz_fields _ ok).2.2.1
  · rw [hnext]
    exact finishQuiz_badgeMints_length _ ok

/-- C5 (witness): the amended advance rule applied to the finished
`roomC5`. -/
theorem C5_witness :
    socketNextQuestion roomC5 "H" true =
      Except.ok ((nextQuestion roomC5 true).1, (nextQuestion roomC5 true).2.1) ∧
      (nextQuestion roomC5 true).1.currentQuestion =
        roomC5.currentQuestion + 1 :=
  ⟨(C5_advance_after_finish_not_rejected roomC5 "H" true rfl rfl (by decide)).1,
   (C5_advance_after_finish_not_rejected roomC5 "H" true rfl rfl
     (by decide)).2.1⟩

/-- C6: the host stop command on a playing room sets `gameState` to
`waiting`, `currentQuestionIndex` to 0 and `timeRemainingSeconds` to 0, and
cancels the timer, while the player map — and with it every player's score
and recorded answers — is left unchanged. -/
theorem C6_stop_resets_state_preserves_players (rooms : List Room)
    (code host : String) (room : Room)
    (hfind : rooms.find? (fun r => r.roomCode = code) = some room)
    (hhost : room.hostAddress = host)
    (_hplaying : room.gameState = GameState.playing) :
    restStopQuiz rooms code host =
      Except.ok { room with
        gameState := GameState.waiting, currentQuestion := 0,
        timeRemaining := 0, timerArmed := false } ∧
      ({ room with
        gameState := GameState.waiting, currentQuestion := 0,
        timeRemaining := 0, timerArmed := false } : Room).players =
        room.players := by
  refine ⟨?_, rfl⟩
  simp [restStopQuiz, hfind, hhost]

/-- C6 (witness): stop applied to the mid-game `roomC6` preserves its
player (score 10, one recorded answer). -/
theorem C6_witness :
    restStopQuiz [roomC6] "R6" "H" =
      Except.ok { roomC6 with
        gameState := GameState.waiting, currentQuestion := 0,
        timeRemaining := 0, timerArmed := false } :=
  (C6_stop_resets_state_preserves_players [roomC6] "R6" "H" roomC6 rfl rfl
    rfl).1

/-- C7: when the connection registered with the host's address disconnects,
the room is fully reset: `gameState` becomes `waiting`,
`currentQuestionIndex` and `timeRemainingSeconds` become 0, the timer is
cancelled, and the entire player list (with all scores and answers) is
cleared. -/
theorem C7_host_disconnect_full_reset (r : Room) (sid addr : String)
    (hhost : addr = r.hostAddress) :
    handleDisconnect r sid addr = resetQuiz (removePlayer r sid) ∧
      (handleDisconnect r sid addr).gameState = GameState.waiting ∧
      (handleDisconnect r sid addr).players = ([] : List Player) ∧
      (handleDisconnect r sid addr).currentQuestion = 0 ∧
      (handleDisconnect r sid addr).timeRemaining = 0 ∧
      (handleDisconnect r sid addr).timerArmed = false := by
  have hst : handleDisconnect r sid addr = resetQuiz (removePlayer r sid) := by
    simp [handleDisconnect, removePlayer, hhost]
  rw [hst]
  exact ⟨rfl, rfl, rfl, rfl, rfl, rfl⟩

/-- C7 (witness): the host of `roomC7` (connection `"s0"`, address `"H"`)
disconnecting clears the other player's score-10 entry. -/
theorem C7_witness :
    (handleDisconnect roomC7 "s0" "H").gameState = GameState.waiting ∧
      (handleDisconnect roomC7 "s0" "H").players = ([] : List Player) :=
  ⟨(C7_host_disconnect_full_reset roomC7 "s0" "H" rfl).2.1,
   (C7_host_disconnect_full_reset roomC7 "s0" "H" rfl).2.2.1⟩

/-- C8 (counterexample): a `POST /api/rooms` request with distribution
`"manual"` and percentages `[50, 30, 10]` (summing to 90) is not rejected —
the server creates a `waiting` room carrying the invalid percentage list
unchanged. -/
theorem C8_counterexample :
    ([50, 30, 10] : List Int).sum = 90 ∧
      (restCreateRoom badCreateQ "H" "R8").gameState = GameState.waiting ∧
      (restCreateRoom badCreateQ "H" "R8").quizData.rewardInfo.distribution =
        "manual" ∧
      (restCreateRoom badCreateQ "H" "R8").quizData.rewardInfo.manualPercentages =
        some [50, 30, 10] := by
  exact ⟨rfl, rfl, rfl, rfl⟩

/-- C8 (amended): the sum-to-100 validation of manual reward percentages is
enforced only client-side: the UI quiz-creation form refuses to submit (with
a validation alert) when the percentages do not sum to exactly 100, so no
creation request is sent; the server-side room-creation endpoint performs no
percentage validation and creates a `waiting` room, carrying the reward rule
unchanged, for every request that reaches it. -/
theorem C8_manual_percent_validation_is_client_side :
    (∀ f : CreateQuizForm,
      ¬(f.title = "" ∨ f.description = "" ∨ f.questions.length = 0) →
      ¬((f.rewardType = "sui" ∨ f.rewardType = "both") ∧
        f.suiRewardAmount ≤ 0) →
      f.rewardDistribution = "manual" →
      f.manualPercentages.sum ≠ 100 →
      uiCreateQuiz f = UiCreateOutcome.rejectedPercentTotal) ∧
    (∀ (q : IncomingQuizData) (host code : String),
      (restCreateRoom q host code).gameState = GameState.waiting ∧
      (restCreateRoom q host code).quizData.rewardInfo.distribution =
        q.rewardDistribution ∧
      (restCreateRoom q host code).quizData.rewardInfo.manualPercentages =
        q.manualPercentages) := by
  constructor
  · intro f h1 h2 h3 h4
    push_neg at h1
    rcases h1 with ⟨ht, hd, hq⟩
    rw [uiCreateQuiz, if_neg (by simp [ht, hd, hq]), if_neg h2,
      if_pos ⟨h3, h4⟩]
  · intro q host code
    exact ⟨rfl, rfl, rfl⟩

/-- C8 (witness): the client-side rejection on the concrete form whose
percentages sum to 90. -/
theorem C8_witness :
    uiCreateQuiz badForm = UiCreateOutcome.rejectedPercentTotal :=
  C8_manual_percent_validation_is_client_side.1 badForm (by decide) (by decide)
    rfl (by decide)

/-- C9: every leaderboard the system computes and broadcasts (the shared
computation `leaderboardFor`, used after a join, after each accepted answer
submission, on request, and stored at finish by `calculateLeaderboard`)
excludes the host identity, lists the remaining players in descending order
of score, and numbers positions from 1 upward. -/
theorem C9_leaderboard_excludes_host_sorted_ranked (r : Room) :
    (calculateLeaderboard r).leaderboard =
      leaderboardFor r.hostAddress r.players ∧
    (∀ e ∈ leaderboardFor r.hostAddress r.players,
      e.address ≠ r.hostAddress) ∧
    (leaderboardFor r.hostAddress r.players).Pairwise
      (fun a b => b.score ≤ a.score) ∧
    (leaderboardFor r.hostAddress r.players).map (fun e => e.position) =
      List.range' 1 (leaderboardFor r.hostAddress r.players).length := by
  refine ⟨rfl, ?_, ?_, ?_⟩
  · intro e he
    have ha : e.address ∈ (withPositions (rankDesc r.hostAddress r.players)
        0).map (fun x => x.address) :=
      List.mem_map_of_mem _ he
    rw [withPositions_map_address] at ha
    rcases List.mem_map.mp ha with ⟨p, hp, hpa⟩
    have hpf : p ∈ r.players.filter (fun q => q.address ≠ r.hostAddress) :=
      (sortDesc_perm _).mem_iff.mp hp
    have := (List.mem_filter.mp hpf).2
    rw [← hpa]
    simpa using this
  · have hs : ((rankDesc r.hostAddress r.players).map
        (fun p => p.score)).Pairwise (fun x y : Nat => y ≤ x) :=
      List.pairwise_map.mpr (sortDesc_pairwise _)
    rw [← withPositions_map_score (rankDesc r.hostAddress r.players) 0] at hs
    exact List.pairwise_map.mp hs
  · rw [leaderboardFor, withPositions_map_position, withPositions_length]

/-- C10 (counterexample): in the quiz of `roomC10` the two questions are
worth 5 and 15 points — both different from 10 — yet the badge's recorded
`totalPossible` (20) equals the truly achievable maximum score (20), so the
recorded maximum is not wrong here, refuting "wrong whenever any question's
points differ from 10". -/
theorem C10_counterexample :
    roomC10.quizData.questions.map (fun q => q.points) = [5, 15] ∧
      (mkBadgeData roomC10 pC10 1).totalPossible = 20 ∧
      maxAchievableScore roomC10.quizData = 20 := by
  exact ⟨rfl, rfl, rfl⟩

/-- C10 (amended): every badge record constructed at finish sets
`totalPossible` to 10 times the number of questions, regardless of the
per-question configured point values; the recorded achievable maximum
therefore differs from the true achievable maximum (the sum of the effective
per-question points) exactly when that sum differs from 10 times the number
of questions. -/
theorem C10_badge_totalPossible_ten_per_question (r : Room) (p : Player)
    (position : Nat) :
    (mkBadgeData r p position).totalPossible =
      r.quizData.questions.length * 10 ∧
    ((mkBadgeData r p position).totalPossible ≠
        maxAchievableScore r.quizData ↔
      maxAchievableScore r.quizData ≠ r.quizData.questions.length * 10) := by
  refine ⟨rfl, ?_⟩
  rw [show (mkBadgeData r p position).totalPossible =
    r.quizData.questions.length * 10 from rfl]
  exact ne_comm

end SuiQuiz
